import Mathlib

/-!
Verification development for the `clone-node` module of `html-to-image`
(`src/clone-node.ts`).

The module recursively clones a live DOM subtree into a detached clone tree.
We give a shallow embedding: DOM nodes become inductive trees, the external
collaborators (`getMimeType`, `resourceToDataURL`, `clonePseudoElements`,
`getComputedStyle`, the live `document`, the async scheduler) become fields of
an `Env` record, asynchronous code becomes the `Except` monad (a rejected
promise is `.error`), and the unbounded recursion through the live document
(`ensureSVGSymbols` can re-enter `cloneNode` on document nodes) is made total
with a fuel parameter: `Err.fuelOut` marks fuel exhaustion and never occurs for
sufficiently large fuel on any given input.
-/

namespace CloneNodeModel

/-- The runtime class of a DOM node, as discriminated by `isInstanceOfElement`
checks in the source (`HTMLCanvasElement`, `HTMLVideoElement`,
`HTMLIFrameElement`, `HTMLSelectElement`, `HTMLTextAreaElement`,
`HTMLInputElement`, generic `Element`); `nonElement` covers text/comment
nodes, which fail the `Element` check. -/
inductive NodeClass where
  | canvas
  | video
  | iframe
  | select
  | textarea
  | inputEl
  | otherElement
  | nonElement
deriving DecidableEq, Repr

/-- A thrown JS exception / rejected promise, plus the fuel marker of the
embedding. -/
inductive Err where
  | fuelOut
  | securityError
  | resourceError (msg : String)
  | nullClone
deriving DecidableEq, Repr

/-- `getAttribute`: first binding of the name in the attribute list
(attribute names are unique in a real DOM element, so "first" is "the"). -/
def getAttr (attrs : List (String × String)) (name : String) : Option String :=
  match attrs with
  | [] => none
  | (n, v) :: rest => if n = name then some v else getAttr rest name

/-- `setAttribute`: replace the binding in place, or append a new one. -/
def setAttrList (attrs : List (String × String)) (name value : String) :
    List (String × String) :=
  match attrs with
  | [] => [(name, value)]
  | (n, v) :: rest =>
    if n = name then (n, value) :: rest else (n, v) :: setAttrList rest name value

/-- One inline-style declaration store entry: (name, value, priority). -/
def setDecl (decls : List (String × String × String)) (name value priority : String) :
    List (String × String × String) :=
  match decls with
  | [] => [(name, value, priority)]
  | (n, v, p) :: rest =>
    if n = name then (n, value, priority) :: rest
    else (n, v, p) :: setDecl rest name value priority

/-- A `CSSStyleDeclaration` on a clone: the `cssText` fast-path slot, the
separately re-copied `transformOrigin`, and the individual declarations set
through `setProperty` / direct property assignment. -/
structure Style where
  cssText : String := ""
  transformOrigin : String := ""
  decls : List (String × String × String) := []
deriving DecidableEq, Repr

def Style.setProperty (s : Style) (name value priority : String) : Style :=
  { s with decls := setDecl s.decls name value priority }

/-- The result of `window.getComputedStyle` on a source node: `cssText` (may
serialize empty), `transformOrigin`, and the enumerable properties as
(name, value, priority) triples, in enumeration order. -/
structure ComputedStyle where
  cssText : String := ""
  transformOrigin : String := ""
  props : List (String × String × String) := []

/-- The `contentDocument` of an iframe as the cloning code observes it:
the property getter may throw (cross-origin), the document may be `null`,
the document's `body` may be `null`, or there is an accessible body node. -/
inductive IframeDoc (α : Type) where
  | inaccessible
  | missing
  | noBody
  | withBody (body : α)
deriving Repr

/-- The non-recursive observable fields of a live source node. -/
structure NodeData where
  kind : NodeClass
  ns : String := ""
  tag : String := ""
  attrs : List (String × String) := []
  /-- live form-control value (`.value`) -/
  value : String := ""
  /-- `video.currentSrc`; the empty string is JS-falsy -/
  currentSrc : String := ""
  /-- `video.poster` -/
  poster : String := ""
  /-- `canvas.toDataURL()` (pixel serialization, platform supplied) -/
  canvasDataURL : String := ""
  clientWidth : Nat := 0
  clientHeight : Nat := 0
deriving Repr

/-- A live source DOM node (`SourceNode` of the spec): its scalar data, its
iframe nested document (relevant only when `kind = iframe`), its slot
assigned nodes (`none` when the node has no `assignedNodes` method), its
shadow root children (`none` when no shadow root is attached), and its
`childNodes`. -/
inductive SNode where
  | mk (data : NodeData) (iframeDoc : IframeDoc SNode)
      (assignedNodes : Option (List SNode)) (shadowRoot : Option (List SNode))
      (children : List SNode)

def SNode.data : SNode → NodeData
  | .mk d _ _ _ _ => d

def SNode.iframeDoc : SNode → IframeDoc SNode
  | .mk _ i _ _ _ => i

def SNode.assignedNodes : SNode → Option (List SNode)
  | .mk _ _ a _ _ => a

def SNode.shadowRoot : SNode → Option (List SNode)
  | .mk _ _ _ s _ => s

def SNode.children : SNode → List SNode
  | .mk _ _ _ _ c => c

/-- The non-recursive fields of a detached clone node. -/
structure CloneData where
  kind : NodeClass
  ns : String := ""
  tag : String := ""
  attrs : List (String × String) := []
  style : Style := {}
  innerHTML : String := ""
deriving DecidableEq, Repr

/-- A detached clone node (`CloneNode` of the spec). -/
inductive CNode where
  | mk (data : CloneData) (children : List CNode)

def CNode.data : CNode → CloneData
  | .mk d _ => d

def CNode.children : CNode → List CNode
  | .mk _ c => c

@[simp] theorem CNode.data_mk (d : CloneData) (cs : List CNode) :
    (CNode.mk d cs).data = d := rfl

@[simp] theorem CNode.children_mk (d : CloneData) (cs : List CNode) :
    (CNode.mk d cs).children = cs := rfl

def CNode.setAttr (c : CNode) (name value : String) : CNode :=
  .mk { c.data with attrs := setAttrList c.data.attrs name value } c.children

def CNode.setStyleProperty (c : CNode) (name value priority : String) : CNode :=
  .mk { c.data with style := c.data.style.setProperty name value priority } c.children

def CNode.setCssText (c : CNode) (t : String) : CNode :=
  .mk { c.data with style := { c.data.style with cssText := t } } c.children

def CNode.setTransformOrigin (c : CNode) (t : String) : CNode :=
  .mk { c.data with style := { c.data.style with transformOrigin := t } } c.children

/-- `appendChild`: add one child at the end. -/
def CNode.appendChild (c : CNode) (child : CNode) : CNode :=
  .mk c.data (c.children ++ [child])

/-- `innerHTML = v`: the DOM replaces the node's children with the parse of
`v`; the values written here are plain text, so we record the string and drop
the children. -/
def CNode.setInnerHTML (c : CNode) (v : String) : CNode :=
  .mk { c.data with innerHTML := v } []

/-- `node.cloneNode(false)`: a shallow structural copy — class, namespace,
tag and attributes, no children. -/
def shallowClone (n : SNode) : CNode :=
  .mk { kind := n.data.kind, ns := n.data.ns, tag := n.data.tag,
        attrs := n.data.attrs } []

mutual

/-- All descendants of a clone in document (pre)order, the node itself
excluded — the search space of `querySelector` / `querySelectorAll`. -/
def descendants : CNode → List CNode
  | .mk _ cs => descendantsList cs

/-- Pre-order listing of a forest: each root followed by its descendants. -/
def descendantsList : List CNode → List CNode
  | [] => []
  | c :: rest => (c :: descendants c) ++ descendantsList rest

end

/-- The `Options` value threaded through the recursion: only the exclusion
predicate (`filter`) is consulted by this module; the rest of the options
object is pass-through configuration for the external collaborators and is
absorbed into their `Env` entries. -/
structure Options where
  filter : Option (SNode → Bool) := none

/-- The empty options literal `{}` that `cloneIFrameElement` builds for the
re-entrant clone of a nested document body. -/
def Options.empty : Options := {}

/-- `!isRoot && options.filter && !options.filter(node)` — the JS truthiness
test on `options.filter` is "a predicate is present". -/
def filterRejects (options : Options) (node : SNode) : Bool :=
  match options.filter with
  | none => false
  | some f => !f node

/-- The external collaborators and platform services the module calls out to,
plus the embedding of the async scheduler. -/
structure Env where
  /-- `getMimeType` from `./mimes` (not part of this module). -/
  getMimeType : String → String
  /-- `resourceToDataURL` from `./dataurl`: may reject (network/parsing). -/
  resourceToDataURL : String → String → Options → Except Err String
  /-- the pixels produced by drawing the video's current frame on a fresh
  canvas sized `clientWidth × clientHeight` and serializing it
  (`ctx.drawImage` + `canvas.toDataURL`) — platform rasterization. -/
  drawVideoFrame : SNode → String
  /-- `window.getComputedStyle` on a live node. -/
  getComputedStyle : SNode → ComputedStyle
  /-- `clonePseudoElements` from `./clone-pseudos` (external collaborator):
  mutates the clone during decoration. -/
  clonePseudoElements : SNode → CNode → CNode
  /-- the floating-point rewrite of a `px` font-size value:
  `Math.floor(parseFloat(v)) - 0.1` re-suffixed with `px`. -/
  reduceFontSizePx : String → String
  /-- `document.querySelector` on the live document. -/
  docQuerySelector : String → Option SNode
  /-- completion order of the concurrent child clones handed to
  `Promise.all`: for a fan-out of width `n` it yields the indices in the
  order in which the child promises settle. -/
  schedule : Nat → List Nat

/-- Modelled from the spec: `createImage` (the image-construction
collaborator of `./util`, whose source is not part of this module) builds a
new image node displaying the data URL — §6: `(dataUrl: string) ->
Promise<ImageNode>`. -/
def createImage (dataURL : String) : CNode :=
  .mk { kind := .otherElement, tag := "img", attrs := [("src", dataURL)] } []

/-- Collect a list of settled task results by task index: the first
rejection (in index order) rejects, otherwise all values in order. -/
def collectResults : List (Except Err α) → Except Err (List α)
  | [] => .ok []
  | t :: ts =>
    match t with
    | .error e => .error e
    | .ok v =>
      match collectResults ts with
      | .error e => .error e
      | .ok vs => .ok (v :: vs)

/-- `JS Promise.all` over already-started tasks: the tasks settle in the
order given by `sched` (indices into the task list); the first task to
reject rejects the join with its error, and if none rejects the join yields
the results placed by task index — i.e. in the input order, not in
completion order. -/
def promiseAll (tasks : List (Except Err α)) (sched : List Nat) :
    Except Err (List α) :=
  match sched.filterMap (fun i =>
      match tasks.get? i with
      | some (.error e) => some e
      | _ => none) with
  | e :: _ => .error e
  | [] => collectResults tasks

/-- `toUpperCase` on the ASCII range, structurally on the character list
(the module only applies it to DOM tag names). -/
def asciiUpper (s : String) : String :=
  ⟨s.data.map (fun c =>
    if 97 ≤ c.toNat ∧ c.toNat ≤ 122 then Char.ofNat (c.toNat - 32) else c)⟩

/-- CSS selector matching for the selectors this module builds out of
`xlink:href` values: a `#`-prefixed selector matches the element with that
`id` attribute, any other selector is a type (tag) selector. Non-element
nodes never match. -/
def matchesSelector (sel : String) (c : CNode) : Bool :=
  c.data.kind ≠ .nonElement &&
    (match sel.data with
     | '#' :: rest => getAttr c.data.attrs "id" = some (String.mk rest)
     | _ => c.data.tag = sel)

/-- `clone.querySelector(sel)`: first matching descendant in document order. -/
def querySelectorC (clone : CNode) (sel : String) : Option CNode :=
  (descendants clone).find? (fun d => matchesSelector sel d)

/-- `clone.querySelectorAll ? clone.querySelectorAll('use') : []` — non-element
nodes have no `querySelectorAll`; otherwise all descendant `use` elements in
document order. -/
def usesOf (clone : CNode) : List CNode :=
  if clone.data.kind = .nonElement then []
  else (descendants clone).filter
    (fun d => d.data.kind ≠ .nonElement && d.data.tag = "use")

/-- `processedDefs[key]` lookup in the dedup table (insertion-ordered). -/
def lookupTable (table : List (String × CNode)) (key : String) : Option CNode :=
  match table with
  | [] => none
  | (k, v) :: rest => if k = key then some v else lookupTable rest key

/-- `isSlotElement`: `node.tagName != null && node.tagName.toUpperCase() ===
'SLOT'`; non-element nodes have no `tagName`. -/
def isSlotElement (node : SNode) : Bool :=
  node.data.kind ≠ .nonElement && asciiUpper node.data.tag = "SLOT"

/-- The child-list resolution of `cloneChildren` (lines 75–88): assigned
nodes for slots, the nested body's children for iframes with an accessible
document (the `contentDocument` getter may throw, uncaught here), otherwise
the shadow root's children if a shadow root is attached, else the node's own
`childNodes`. -/
def resolvedChildren (nativeNode : SNode) : Except Err (List SNode) :=
  if isSlotElement nativeNode ∧ nativeNode.assignedNodes.isSome then
    .ok (nativeNode.assignedNodes.getD [])
  else if nativeNode.data.kind = .iframe then
    match nativeNode.iframeDoc with
    | .inaccessible => .error .securityError
    | .withBody b => .ok b.children
    | _ => .ok ((nativeNode.shadowRoot.getD nativeNode.children))
  else
    .ok (nativeNode.shadowRoot.getD nativeNode.children)

/-- The type of the re-entrant `cloneNode` entry point, abstracted so the
per-step functions can be stated before the fuelled knot is tied. -/
def CloneRec : Type := SNode → Options → Bool → Except Err (Option CNode)

/-- `cloneCanvasElement` (lines 7–13): serialize the pixels; the empty-canvas
sentinel `'data:,'` falls back to a structural shallow clone, anything else
becomes a fresh image node. -/
def cloneCanvasElement (canvas : SNode) : Except Err CNode :=
  let dataURL := canvas.data.canvasDataURL
  if dataURL = "data:," then
    .ok (shallowClone canvas)
  else
    .ok (createImage dataURL)

/-- `cloneVideoElement` (lines 15–30): with a resolved `currentSrc`, draw the
current frame and wrap it as an image; otherwise fetch the poster through the
resource collaborator (which may reject — the rejection is not handled here)
and wrap that as an image. -/
def cloneVideoElement (env : Env) (video : SNode) (options : Options) :
    Except Err CNode :=
  if video.data.currentSrc ≠ "" then
    .ok (createImage (env.drawVideoFrame video))
  else
    let poster := video.data.poster
    let contentType := env.getMimeType poster
    match env.resourceToDataURL poster contentType options with
    | .error e => .error e
    | .ok dataURL => .ok (createImage dataURL)

/-- `cloneIFrameElement` (lines 32–46): inside a `try`, if the nested
document's body is accessible, re-enter `cloneNode` on it **with fresh empty
options and `isRoot = true`**; any exception (the `contentDocument` getter
throwing, or the re-entrant clone rejecting) is swallowed by the `catch`, and
every path that does not return from the `try` block falls through to a
shallow structural clone of the iframe itself. The `.ok none` case mirrors
the TS non-null cast: a root clone never yields `null`, so it is modelled as
the failure the later pipeline would raise on a null node. -/
def cloneIFrameElement (recur : CloneRec) (iframe : SNode) : Except Err CNode :=
  let tryBlock : Except Err (Option (Option CNode)) :=
    match iframe.iframeDoc with
    | .inaccessible => .error .securityError
    | .withBody b => (recur b Options.empty true).map some
    | _ => .ok none
  match tryBlock with
  | .ok (some (some c)) => .ok c
  | .ok (some none) => .error .nullClone
  | _ => .ok (shallowClone iframe)

/-- `cloneSingleNode` (lines 48–65): the per-class dispatch producing the
shallow clone of one node. -/
def cloneSingleNode (env : Env) (recur : CloneRec) (node : SNode)
    (options : Options) : Except Err CNode :=
  if node.data.kind = .canvas then
    cloneCanvasElement node
  else if node.data.kind = .video then
    cloneVideoElement env node options
  else if node.data.kind = .iframe then
    cloneIFrameElement recur node
  else
    .ok (shallowClone node)

/-- `cloneChildren` (lines 70–108): resolve the logical child list; return the
clone unchanged when it is empty or the node is a video; otherwise fan out
one recursive clone per child, join them with `Promise.all`, and append each
non-null result in order. -/
def cloneChildren (env : Env) (recur : CloneRec) (nativeNode : SNode)
    (clonedNode : CNode) (options : Options) : Except Err CNode :=
  match resolvedChildren nativeNode with
  | .error e => .error e
  | .ok children =>
    if children.length = 0 ∨ nativeNode.data.kind = .video then
      .ok clonedNode
    else
      match promiseAll (children.map (fun child => recur child options false))
          (env.schedule children.length) with
      | .error e => .error e
      | .ok clonedChildren =>
        .ok (.mk clonedNode.data (clonedNode.children ++ clonedChildren.filterMap id))

/-- `cloneCSSStyle` (lines 110–158): copy `getComputedStyle(native)` onto the
clone's inline style — fast path through `cssText` (plus an explicit
`transformOrigin` re-copy), otherwise property by property with the
`font-size` / `display` / `d` rewrites. -/
def cloneCSSStyle (env : Env) (nativeNode : SNode) (clonedNode : CNode) : CNode :=
  if clonedNode.data.kind = .nonElement then clonedNode
  else
    let sourceStyle := env.getComputedStyle nativeNode
    if sourceStyle.cssText ≠ "" then
      (clonedNode.setCssText sourceStyle.cssText).setTransformOrigin
        sourceStyle.transformOrigin
    else
      sourceStyle.props.foldl
        (fun c p =>
          match p with
          | (name, value, priority) =>
            let value :=
              if name = "font-size" ∧ value.endsWith "px" then
                env.reduceFontSizePx value
              else if name = "display" ∧ value = "inline" ∧
                  nativeNode.data.kind = .iframe then
                "block"
              else if name = "d" then
                match getAttr c.data.attrs "d" with
                | some dAttr =>
                  if dAttr ≠ "" then "path(" ++ dAttr ++ ")" else value
                | none => value
              else value
            c.setStyleProperty name value priority)
        clonedNode

/-- `cloneInputValue` (lines 160–168): live textarea text becomes the clone's
content, live input values become a `value` attribute. -/
def cloneInputValue (nativeNode : SNode) (clonedNode : CNode) : CNode :=
  let clonedNode :=
    if nativeNode.data.kind = .textarea then
      clonedNode.setInnerHTML nativeNode.data.value
    else clonedNode
  if nativeNode.data.kind = .inputEl then
    clonedNode.setAttr "value" nativeNode.data.value
  else clonedNode

/-- The `find`-and-mutate of `cloneSelectValue`: mark the first element child
whose `value` attribute equals the live select value with `selected=""`,
leaving every other child untouched. -/
def markSelected (v : String) : List CNode → List CNode
  | [] => []
  | c :: cs =>
    if c.data.kind ≠ .nonElement ∧ getAttr c.data.attrs "value" = some v then
      c.setAttr "selected" "" :: cs
    else
      c :: markSelected v cs

/-- `cloneSelectValue` (lines 170–181): on a select, find among the clone's
element children the option whose `value` attribute matches the live value
and set its `selected` attribute; if none matches, leave the clone as is. -/
def cloneSelectValue (nativeNode : SNode) (clonedNode : CNode) : CNode :=
  if nativeNode.data.kind = .select then
    .mk clonedNode.data (markSelected nativeNode.data.value clonedNode.children)
  else clonedNode

/-- `decorate` (lines 183–192): on element clones, style transfer, then the
pseudo-element collaborator, then input value, then select value. -/
def decorate (env : Env) (nativeNode : SNode) (clonedNode : CNode) : CNode :=
  if clonedNode.data.kind = .nonElement then clonedNode
  else
    cloneSelectValue nativeNode
      (cloneInputValue nativeNode
        (env.clonePseudoElements nativeNode
          (cloneCSSStyle env nativeNode clonedNode)))

/-- The `processedDefs` loop of `ensureSVGSymbols` (lines 203–215): for each
`use`, read `xlink:href`; when it is a non-empty reference with no match
already inside the clone, a definition in the live document and no entry in
the dedup table, re-enter `cloneNode` on the definition **with `isRoot =
true`** and record the (asserted non-null) clone under the reference. -/
def collectSVGDefs (env : Env) (recur : CloneRec) (clone : CNode)
    (options : Options) :
    List CNode → List (String × CNode) → Except Err (List (String × CNode))
  | [], table => .ok table
  | u :: rest, table =>
    match getAttr u.data.attrs "xlink:href" with
    | some i =>
      if i = "" then collectSVGDefs env recur clone options rest table
      else
        match env.docQuerySelector i with
        | some definition =>
          if (querySelectorC clone i).isNone && (lookupTable table i).isNone then
            match recur definition options true with
            | .ok (some c) => collectSVGDefs env recur clone options rest (table ++ [(i, c)])
            | .ok none => .error .nullClone
            | .error e => .error e
          else collectSVGDefs env recur clone options rest table
        | none => collectSVGDefs env recur clone options rest table
    | none => collectSVGDefs env recur clone options rest table

def xhtmlNS : String := "http://www.w3.org/1999/xhtml"

def svgNS : String := "http://www.w3.org/2000/svg"

/-- `document.createElementNS(ns, tag)`: a fresh empty element. -/
def createElementNS (ns tag : String) : CNode :=
  .mk { kind := .otherElement, ns := ns, tag := tag } []

/-- The auxiliary container of `ensureSVGSymbols` (lines 219–233): an
`svg` element created in the XHTML namespace, hidden by inline style, holding
a `defs` wrapper (same namespace) with the collected definitions. -/
def buildSVGContainer (nodes : List CNode) : CNode :=
  let svg := createElementNS xhtmlNS "svg"
  let svg := svg.setAttr "xmlns" xhtmlNS
  let svg := svg.setStyleProperty "position" "absolute" ""
  let svg := svg.setStyleProperty "width" "0" ""
  let svg := svg.setStyleProperty "height" "0" ""
  let svg := svg.setStyleProperty "overflow" "hidden" ""
  let svg := svg.setStyleProperty "display" "none" ""
  let defs := createElementNS xhtmlNS "defs"
  svg.appendChild (.mk defs.data (defs.children ++ nodes))

/-- `ensureSVGSymbols` (lines 194–239): scan the finished clone for `use`
references, collect the missing definitions from the live document, and when
any were collected append the hidden container as the clone's last child. -/
def ensureSVGSymbols (env : Env) (recur : CloneRec) (clone : CNode)
    (options : Options) : Except Err CNode :=
  let uses := usesOf clone
  if uses.length = 0 then
    .ok clone
  else
    match collectSVGDefs env recur clone options uses [] with
    | .error e => .error e
    | .ok processedDefs =>
      let nodes := processedDefs.map Prod.snd
      if nodes.length ≠ 0 then
        .ok (clone.appendChild (buildSVGContainer nodes))
      else
        .ok clone

/-- The `.then` chain of `cloneNode` (lines 250–253): shallow clone, recurse
into children, decorate, resolve SVG symbols. -/
def runClonePipeline (env : Env) (recur : CloneRec) (node : SNode)
    (options : Options) : Except Err CNode :=
  match cloneSingleNode env recur node options with
  | .error e => .error e
  | .ok c1 =>
    match cloneChildren env recur node c1 options with
    | .error e => .error e
    | .ok c2 => ensureSVGSymbols env recur (decorate env node c2) options

/-- `cloneNode` (lines 241–254), the public entry point, fuelled: a non-root
call rejected by the exclusion predicate short-circuits to `null`; every
other call runs the pipeline. -/
def cloneNode (env : Env) : Nat → SNode → Options → Bool →
    Except Err (Option CNode)
  | 0, _, _, _ => .error .fuelOut
  | fuel + 1, node, options, isRoot =>
    if !isRoot && filterRejects options node then
      .ok none
    else
      (runClonePipeline env (cloneNode env fuel) node options).map some

/-- Spec-words variant of the iframe step, for comparison with the source
(§4.6 step 3 / §2: "using the same options for every descendant"): identical
to `cloneIFrameElement` except that the caller's options are threaded into
the re-entrant clone of the nested document body. -/
def cloneIFrameElementThreaded (recur : CloneRec) (iframe : SNode)
    (options : Options) : Except Err CNode :=
  let tryBlock : Except Err (Option (Option CNode)) :=
    match iframe.iframeDoc with
    | .inaccessible => .error .securityError
    | .withBody b => (recur b options true).map some
    | _ => .ok none
  match tryBlock with
  | .ok (some (some c)) => .ok c
  | .ok (some none) => .error .nullClone
  | _ => .ok (shallowClone iframe)

/-- Spec-words variant of `cloneSingleNode` built on
`cloneIFrameElementThreaded`. -/
def cloneSingleNodeThreaded (env : Env) (recur : CloneRec) (node : SNode)
    (options : Options) : Except Err CNode :=
  if node.data.kind = .canvas then
    cloneCanvasElement node
  else if node.data.kind = .video then
    cloneVideoElement env node options
  else if node.data.kind = .iframe then
    cloneIFrameElementThreaded recur node options
  else
    .ok (shallowClone node)

/-- Spec-words variant of the pipeline built on `cloneSingleNodeThreaded`. -/
def runClonePipelineThreaded (env : Env) (recur : CloneRec) (node : SNode)
    (options : Options) : Except Err CNode :=
  match cloneSingleNodeThreaded env recur node options with
  | .error e => .error e
  | .ok c1 =>
    match cloneChildren env recur node c1 options with
    | .error e => .error e
    | .ok c2 => ensureSVGSymbols env recur (decorate env node c2) options

/-- Spec-words variant of `cloneNode` in which the same options value is
threaded into every recursive descent, the iframe body included. -/
def cloneNodeThreaded (env : Env) : Nat → SNode → Options → Bool →
    Except Err (Option CNode)
  | 0, _, _, _ => .error .fuelOut
  | fuel + 1, node, options, isRoot =>
    if !isRoot && filterRejects options node then
      .ok none
    else
      (runClonePipelineThreaded env (cloneNodeThreaded env fuel) node options).map some

/-! ### Concrete fixtures

Small live trees, environments and options used to instantiate the theorems
below on concrete inputs. -/

/-- An environment whose collaborators are all inert: resources resolve,
computed style is empty, the pseudo-element collaborator is the identity,
the live document is empty, children complete in index order. -/
def envTrivial : Env where
  getMimeType := fun _ => ""
  resourceToDataURL := fun _ _ _ => .ok "data:image/png;base64,AAAA"
  drawVideoFrame := fun _ => "data:image/png;base64,FRAME"
  getComputedStyle := fun _ => {}
  clonePseudoElements := fun _ c => c
  reduceFontSizePx := fun v => v
  docQuerySelector := fun _ => none
  schedule := fun n => List.range n

/-- Like `envTrivial`, but every resource conversion rejects. -/
def envPosterFail : Env :=
  { envTrivial with resourceToDataURL := fun _ _ _ => .error (.resourceError "network down") }

/-- Like `envTrivial`, but the children of a fan-out complete in reversed
index order. -/
def envReversed : Env :=
  { envTrivial with schedule := fun n => (List.range n).reverse }

/-- A text node. -/
def textFix : SNode := .mk { kind := .nonElement } .missing none none []

/-- A childless `div`. -/
def divFix : SNode := .mk { kind := .otherElement, tag := "div" } .missing none none []

/-- A canvas that never got drawn on: serializes to the empty sentinel. -/
def canvasEmptyFix : SNode :=
  .mk { kind := .canvas, tag := "canvas", canvasDataURL := "data:," } .missing none none []

/-- A canvas with pixel content. -/
def canvasPixFix : SNode :=
  .mk { kind := .canvas, tag := "canvas", canvasDataURL := "data:image/png;base64,PIX" }
    .missing none none []

/-- A video with no resolved source and a poster. -/
def videoPosterFix : SNode :=
  .mk { kind := .video, tag := "video", poster := "poster.png" } .missing none none []

/-- A document body holding only the poster video. -/
def bodyVideoFix : SNode :=
  .mk { kind := .otherElement, tag := "body" } .missing none none [videoPosterFix]

/-- An iframe whose accessible nested document body holds the poster video. -/
def iframeVideoFix : SNode :=
  .mk { kind := .iframe, tag := "iframe" } (.withBody bodyVideoFix) none none []

/-- Options whose filter rejects video nodes (and only those). -/
def optsNoVideo : Options := { filter := some (fun n => n.data.kind ≠ .video) }

/-- A document body holding one `div`. -/
def bodyDivFix : SNode :=
  .mk { kind := .otherElement, tag := "body" } .missing none none [divFix]

/-- An iframe whose accessible nested document body holds one `div`. -/
def iframeDivFix : SNode :=
  .mk { kind := .iframe, tag := "iframe" } (.withBody bodyDivFix) none none []

/-- The exclusion predicate rejecting `div` elements. -/
def noDivFilter : SNode → Bool := fun n => n.data.tag ≠ "div"

/-- Options whose filter rejects `div` elements (and only those). -/
def optsNoDiv : Options := { filter := some noDivFilter }

/-- A cross-origin iframe: the `contentDocument` getter throws. -/
def iframeInaccFix : SNode :=
  .mk { kind := .iframe, tag := "iframe" } .inaccessible none none []

/-- An iframe with an accessible body (holding one `div`), for exercising a
failing re-entrant clone. -/
def iframeBodyFix : SNode :=
  .mk { kind := .iframe, tag := "iframe" } (.withBody bodyDivFix) none none []

/-- A re-entrant clone stub that always rejects. -/
def failRec : CloneRec := fun _ _ _ => .error (.resourceError "inner failure")

/-- A clone of a `use` element referencing `#sym1`. -/
def useCloneFix : CNode :=
  .mk { kind := .otherElement, tag := "use", attrs := [("xlink:href", "#sym1")] } []

/-- A finished clone holding one `use` reference and no matching definition. -/
def hostCloneFix : CNode :=
  .mk { kind := .otherElement, tag := "div" } [useCloneFix]

/-- The live-document definition node for `#sym1`. -/
def symbolDefFix : SNode :=
  .mk { kind := .otherElement, tag := "symbol", attrs := [("id", "sym1")] }
    .missing none none []

/-- Like `envTrivial`, but the live document resolves `#sym1` to
`symbolDefFix`. -/
def envDocFix : Env :=
  { envTrivial with
    docQuerySelector := fun s => if s = "#sym1" then some symbolDefFix else none }

/-- The exclusion predicate rejecting `symbol` elements. -/
def noSymbolFilter : SNode → Bool := fun n => n.data.tag ≠ "symbol"

/-- Options whose filter rejects `symbol` elements (and only those). -/
def optsNoSymbol : Options := { filter := some noSymbolFilter }

/-- A clone of the `#sym1` definition, `id` attribute preserved. -/
def symbolDefCloneFix : CNode :=
  .mk { kind := .otherElement, tag := "symbol", attrs := [("id", "sym1")] } []

/-- A finished clone in which the `use` reference already has its matching
definition inside the clone. -/
def resolvedCloneFix : CNode :=
  .mk { kind := .otherElement, tag := "svg" } [useCloneFix, symbolDefCloneFix]

/-- A live `select` whose current value is `"b"`. -/
def selectFix : SNode :=
  .mk { kind := .select, tag := "select", value := "b" } .missing none none []

def optionAFix : CNode :=
  .mk { kind := .otherElement, tag := "option", attrs := [("value", "a")] } []

def optionBFix : CNode :=
  .mk { kind := .otherElement, tag := "option", attrs := [("value", "b")] } []

def optionCFix : CNode :=
  .mk { kind := .otherElement, tag := "option", attrs := [("value", "c")] } []

/-- The raw clone of `selectFix` with its cloned option children attached. -/
def selectCloneFix : CNode :=
  .mk { kind := .select, tag := "select" } [optionAFix, optionBFix, optionCFix]

/-- A parent with three `div` children, for the ordering scenario. -/
def parent3Fix : SNode :=
  .mk { kind := .otherElement, tag := "p" } .missing none none
    [.mk { kind := .otherElement, tag := "div", attrs := [("n", "1")] } .missing none none [],
     .mk { kind := .otherElement, tag := "div", attrs := [("n", "2")] } .missing none none [],
     .mk { kind := .otherElement, tag := "div", attrs := [("n", "3")] } .missing none none []]

/-- Options whose filter rejects the child marked `n="2"` (and only it). -/
def optsNo2 : Options :=
  { filter := some (fun n => getAttr n.data.attrs "n" ≠ some "2") }

/-- The expected clone of the first child of `parent3Fix`. -/
def div1CloneFix : CNode :=
  .mk { kind := .otherElement, tag := "div", attrs := [("n", "1")] } []

/-- The expected clone of the third child of `parent3Fix`. -/
def div3CloneFix : CNode :=
  .mk { kind := .otherElement, tag := "div", attrs := [("n", "3")] } []

/-- The clone data of `bodyDivFix`'s shallow clone. -/
def bodyCloneDataFix : CloneData := { kind := .otherElement, tag := "body" }

/-- The expected clone of `divFix`. -/
def divCloneFix : CNode := .mk { kind := .otherElement, tag := "div" } []

/-! ### Helper lemmas -/

/-- Eta for clone nodes. -/
theorem CNode.eta (c : CNode) : CNode.mk c.data c.children = c := by
  cases c; rfl

/-- If the index-ordered join succeeds, every task succeeded. -/
theorem collectResults_forall_ok {tasks : List (Except Err α)} {rs : List α}
    (h : collectResults tasks = .ok rs) : ∀ t ∈ tasks, ∃ v, t = .ok v := by
  induction tasks generalizing rs with
  | nil => intro t ht; cases ht
  | cons t ts ih =>
    cases ht : t with
    | error e =>
      simp [collectResults, ht] at h
    | ok v =>
      simp only [collectResults, ht] at h
      cases hts : collectResults ts with
      | error e2 =>
        rw [hts] at h
        simp at h
      | ok vs =>
        rw [hts] at h
        intro u hu
        rcases List.mem_cons.mp hu with rfl | hu
        · exact ⟨v, rfl⟩
        · exact ih hts u hu

/-- `Promise.all` with every task fulfilled: the join yields the results in
task order, whatever the completion order. -/
theorem promiseAll_of_ok {tasks : List (Except Err α)} {rs : List α}
    (h : collectResults tasks = .ok rs) (sched : List Nat) :
    promiseAll tasks sched = .ok rs := by
  have hscan : sched.filterMap (fun i =>
      match tasks.get? i with
      | some (.error e) => some e
      | _ => none) = [] := by
    rw [List.filterMap_eq_nil_iff]
    intro i _
    cases hg : tasks.get? i with
    | none => simp
    | some t =>
      rcases collectResults_forall_ok h t (List.get?_mem hg) with ⟨v, hv⟩
      simp [hg, hv]
  rw [promiseAll, hscan, h]

/-- `Promise.all` with a rejected task: the join rejects (with the first
rejection to settle). -/
theorem promiseAll_of_error {tasks : List (Except Err α)} {e : Err}
    (h : collectResults tasks = .error e) (sched : List Nat) :
    ∃ e2, promiseAll tasks sched = .error e2 := by
  cases hscan : sched.filterMap (fun i =>
      match tasks.get? i with
      | some (.error e) => some e
      | _ => none) with
  | nil => exact ⟨e, by rw [promiseAll, hscan, h]⟩
  | cons e2 tl => exact ⟨e2, by rw [promiseAll, hscan]⟩

/-- A root call ignores the filter and always runs the full pipeline. -/
theorem cloneNode_root (env : Env) (fuel : Nat) (node : SNode) (options : Options) :
    cloneNode env (fuel + 1) node options true =
      (runClonePipeline env (cloneNode env fuel) node options).map some := rfl

/-- A non-root call with a rejecting filter short-circuits to `null`. -/
theorem cloneNode_filtered (env : Env) (fuel : Nat) (node : SNode)
    (options : Options) (f : SNode → Bool) (hf : options.filter = some f)
    (hrej : f node = false) :
    cloneNode env (fuel + 1) node options false = .ok none := by
  simp [cloneNode, filterRejects, hf, hrej]

/-- `lookupTable` misses exactly the keys outside the table. -/
theorem lookupTable_none_iff (table : List (String × CNode)) (key : String) :
    lookupTable table key = none ↔ key ∉ table.map Prod.fst := by
  induction table with
  | nil => simp [lookupTable]
  | cons p rest ih =>
    rcases p with ⟨k, v⟩
    by_cases hk : k = key
    · subst hk; simp [lookupTable]
    · simp [lookupTable, hk, ih, Ne.symm hk]

/-- The `processedDefs` loop invariant: every entry the loop adds is keyed by
a reference with no match inside the clone, holds the root re-entrant clone
of the live document's definition for that reference, and keys stay
pairwise-distinct. -/
theorem collectSVGDefs_inv (env : Env) (recur : CloneRec) (clone : CNode)
    (options : Options) :
    ∀ (uses : List CNode) (table0 table : List (String × CNode)),
      collectSVGDefs env recur clone options uses table0 = .ok table →
      (∀ p ∈ table, p ∈ table0 ∨
        (querySelectorC clone p.1 = none ∧
          ∃ d, env.docQuerySelector p.1 = some d ∧
            recur d options true = .ok (some p.2))) ∧
      ((table0.map Prod.fst).Nodup → (table.map Prod.fst).Nodup) := by
  intro uses
  induction uses with
  | nil =>
    intro table0 table h
    simp only [collectSVGDefs, Except.ok.injEq] at h
    subst h
    exact ⟨fun p hp => .inl hp, fun hn => hn⟩
  | cons u rest ih =>
    intro table0 table h
    rw [collectSVGDefs.eq_def] at h
    simp only [] at h
    cases hattr : getAttr u.data.attrs "xlink:href" with
    | none =>
      simp only [hattr] at h
      exact ih table0 table h
    | some i =>
      simp only [hattr] at h
      by_cases hi : i = ""
      · rw [if_pos hi] at h
        exact ih table0 table h
      · rw [if_neg hi] at h
        cases hdoc : env.docQuerySelector i with
        | none =>
          simp only [hdoc] at h
          exact ih table0 table h
        | some definition =>
          simp only [hdoc] at h
          cases hcond : (querySelectorC clone i).isNone && (lookupTable table0 i).isNone with
          | false =>
            simp only [hcond, Bool.false_eq_true, if_false] at h
            exact ih table0 table h
          | true =>
            simp only [hcond, if_true] at h
            simp only [Bool.and_eq_true] at hcond
            rcases hcond with ⟨hq, hl⟩
            have hqnone : querySelectorC clone i = none :=
              Option.isNone_iff_eq_none.mp hq
            have hlnone : i ∉ table0.map Prod.fst :=
              (lookupTable_none_iff table0 i).mp (Option.isNone_iff_eq_none.mp hl)
            cases hrec : recur definition options true with
            | error e => simp [hrec] at h
            | ok r =>
              cases r with
              | none => simp [hrec] at h
              | some c =>
                simp only [hrec] at h
                rcases ih (table0 ++ [(i, c)]) table h with ⟨Hmem, Hnodup⟩
                constructor
                · intro p hp
                  rcases Hmem p hp with hp0 | hgood
                  · rcases List.mem_append.mp hp0 with hp0 | hp1
                    · exact .inl hp0
                    · right
                      rcases List.mem_singleton.mp hp1 with rfl
                      exact ⟨hqnone, definition, hdoc, hrec⟩
                  · exact .inr hgood
                · intro hn0
                  apply Hnodup
                  simp only [List.map_append, List.map_cons, List.map_nil]
                  simp [List.nodup_append, hn0, hlnone]

/-- When every reference among the scanned `use` elements is absent, empty,
or already matched inside the clone, the `processedDefs` loop adds nothing. -/
theorem collectSVGDefs_skip (env : Env) (recur : CloneRec) (clone : CNode)
    (options : Options) :
    ∀ (uses : List CNode) (table0 : List (String × CNode)),
      (∀ u ∈ uses, ∀ i, getAttr u.data.attrs "xlink:href" = some i → i ≠ "" →
        (querySelectorC clone i).isSome = true) →
      collectSVGDefs env recur clone options uses table0 = .ok table0 := by
  intro uses
  induction uses with
  | nil =>
    intro table0 hskip
    simp [collectSVGDefs]
  | cons u rest ih =>
    intro table0 hskip
    have htail := ih table0 (fun v hv i hi hne => hskip v (List.mem_cons_of_mem u hv) i hi hne)
    cases hattr : getAttr u.data.attrs "xlink:href" with
    | none =>
      rw [collectSVGDefs.eq_def]
      simp only [hattr]
      exact htail
    | some i =>
      by_cases hi : i = ""
      · rw [collectSVGDefs.eq_def]
        simp only [hattr, if_pos hi]
        exact htail
      · cases hdoc : env.docQuerySelector i with
        | none =>
          rw [collectSVGDefs.eq_def]
          simp only [hattr, if_neg hi, hdoc]
          exact htail
        | some definition =>
          have hsome : (querySelectorC clone i).isSome = true :=
            hskip u (List.mem_cons_self u rest) i hattr hi
          have hnone : (querySelectorC clone i).isNone = false := by
            rcases Option.isSome_iff_exists.mp hsome with ⟨x, hx⟩
            simp [hx]
          rw [collectSVGDefs.eq_def]
          simp only [hattr, if_neg hi, hdoc, hnone, Bool.false_and,
            Bool.false_eq_true, if_false]
          exact htail

/-! ### Claims -/

/-- C1: for every `cloneNode(node, options, isRoot)` call with `isRoot` not
true whose options carry an exclusion predicate returning `false` on the
node, the result is absent (`null`) — no clone is constructed and no
descendant is visited; with `isRoot` true the predicate is never consulted
for the node itself, and the call always proceeds into the cloning
pipeline. -/
theorem C1_filter_gate (env : Env) (fuel : Nat) (node : SNode)
    (options : Options) (f : SNode → Bool) (hf : options.filter = some f)
    (hrej : f node = false) :
    cloneNode env (fuel + 1) node options false = .ok none ∧
    cloneNode env (fuel + 1) node options true =
      (runClonePipeline env (cloneNode env fuel) node options).map some :=
  ⟨cloneNode_filtered env fuel node options f hf hrej,
   cloneNode_root env fuel node options⟩

/-- C1 witness: the `div`-rejecting filter prunes a non-root `div` clone but
not a root one. -/
theorem C1_filter_gate_witness :
    cloneNode envTrivial 1 divFix optsNoDiv false = .ok none ∧
    cloneNode envTrivial 1 divFix optsNoDiv true =
      (runClonePipeline envTrivial (cloneNode envTrivial 0) divFix optsNoDiv).map some :=
  C1_filter_gate envTrivial 0 divFix optsNoDiv noDivFilter rfl rfl

/-- C2: a canvas's shallow clone is decided by its pixel serialization — the
`'data:,'` sentinel yields a childless structural canvas clone (still a
canvas node), any other serialization yields an image node (never a canvas)
holding exactly that freshly serialized data. -/
theorem C2_canvas_clone (canvas : SNode) (hk : canvas.data.kind = .canvas) :
    (canvas.data.canvasDataURL = "data:," →
      cloneCanvasElement canvas = .ok (shallowClone canvas) ∧
      (shallowClone canvas).data.kind = .canvas ∧
      (shallowClone canvas).children = []) ∧
    (canvas.data.canvasDataURL ≠ "data:," →
      cloneCanvasElement canvas = .ok (createImage canvas.data.canvasDataURL) ∧
      (createImage canvas.data.canvasDataURL).data.kind ≠ .canvas ∧
      (createImage canvas.data.canvasDataURL).data.tag = "img" ∧
      getAttr (createImage canvas.data.canvasDataURL).data.attrs "src" =
        some canvas.data.canvasDataURL) := by
  constructor
  · intro hs
    refine ⟨by simp [cloneCanvasElement, hs], ?_, rfl⟩
    simp [shallowClone, hk]
  · intro hs
    exact ⟨by simp [cloneCanvasElement, hs], by simp [createImage], rfl,
      by simp [createImage, getAttr]⟩

/-- C2 witness: the blank canvas stays a canvas, the drawn canvas becomes an
image node carrying the serialized pixels. -/
theorem C2_canvas_clone_witness :
    cloneCanvasElement canvasEmptyFix = .ok (shallowClone canvasEmptyFix) ∧
    cloneCanvasElement canvasPixFix = .ok (createImage "data:image/png;base64,PIX") ∧
    (createImage "data:image/png;base64,PIX").data.kind ≠ .canvas := by
  refine ⟨((C2_canvas_clone canvasEmptyFix rfl).1 rfl).1, ?_, ?_⟩
  · exact ((C2_canvas_clone canvasPixFix rfl).2 (by decide)).1
  · exact ((C2_canvas_clone canvasPixFix rfl).2 (by decide)).2.1

/-- C3: every failure of the iframe-cloning step — the `contentDocument`
getter throwing, a missing document or body, or the re-entrant clone of the
body failing — is caught locally inside `cloneIFrameElement`, whose result
is then the childless shallow structural clone of the iframe itself; such a
failure is never surfaced to the caller of the step. -/
theorem C3_iframe_absorbs (recur : CloneRec) (iframe : SNode) :
    (iframe.iframeDoc = .inaccessible →
      cloneIFrameElement recur iframe = .ok (shallowClone iframe)) ∧
    (iframe.iframeDoc = .missing →
      cloneIFrameElement recur iframe = .ok (shallowClone iframe)) ∧
    (iframe.iframeDoc = .noBody →
      cloneIFrameElement recur iframe = .ok (shallowClone iframe)) ∧
    (∀ b e, iframe.iframeDoc = .withBody b →
      recur b Options.empty true = .error e →
      cloneIFrameElement recur iframe = .ok (shallowClone iframe)) ∧
    (shallowClone iframe).children = [] := by
  refine ⟨fun h => ?_, fun h => ?_, fun h => ?_, fun b e h hrec => ?_, rfl⟩
  · simp [cloneIFrameElement, h]
  · simp [cloneIFrameElement, h]
  · simp [cloneIFrameElement, h]
  · simp [cloneIFrameElement, h, hrec, Except.map]

/-- C3 witness: a throwing `contentDocument` getter and a rejecting
re-entrant body clone both degrade to the childless iframe clone. -/
theorem C3_iframe_absorbs_witness :
    cloneIFrameElement failRec iframeInaccFix = .ok (shallowClone iframeInaccFix) ∧
    cloneIFrameElement failRec iframeBodyFix = .ok (shallowClone iframeBodyFix) ∧
    (shallowClone iframeBodyFix).children = [] :=
  ⟨(C3_iframe_absorbs failRec iframeInaccFix).1 rfl,
   (C3_iframe_absorbs failRec iframeBodyFix).2.2.2.1 bodyDivFix
     (.resourceError "inner failure") rfl rfl,
   (C3_iframe_absorbs failRec iframeBodyFix).2.2.2.2⟩

/-- C4 counterexample: a poster conversion failure is *not* uncaught
everywhere — inside an iframe's nested document it is absorbed. The
conversion rejects (first conjunct) and rejects the video's own non-root
clone call (second conjunct), yet the enclosing top-level clone of the
iframe succeeds (third conjunct), because `cloneIFrameElement` catches the
re-entrant body clone's rejection and the caller's filter prunes the video
on the outer child pass. -/
theorem C4_poster_failure_cex :
    envPosterFail.resourceToDataURL "poster.png" "" Options.empty =
      .error (.resourceError "network down") ∧
    cloneNode envPosterFail 3 videoPosterFix Options.empty false =
      .error (.resourceError "network down") ∧
    cloneNode envPosterFail 5 iframeVideoFix optsNoVideo true =
      .ok (some (shallowClone iframeVideoFix)) :=
  ⟨rfl, rfl, rfl⟩

/-- C4 (amended): for a video without a resolved current source the clone is
the poster conversion wrapped as an image node; a conversion rejection
rejects the video's own clone uncaught through `cloneVideoElement`,
`cloneSingleNode` and the video's `cloneNode` call, and a rejected child
rejects its parent's `cloneChildren` join — so with no enclosing
iframe-cloning boundary (the one step that absorbs rejections of its
re-entrant body clone) the failure reaches and fails the top-level clone
operation. -/
theorem C4_poster_failure (env : Env) (recur : CloneRec) (video : SNode)
    (options : Options) (hk : video.data.kind = .video)
    (hsrc : video.data.currentSrc = "") :
    (∀ d, env.resourceToDataURL video.data.poster
        (env.getMimeType video.data.poster) options = .ok d →
      cloneVideoElement env video options = .ok (createImage d)) ∧
    (∀ e, env.resourceToDataURL video.data.poster
        (env.getMimeType video.data.poster) options = .error e →
      cloneVideoElement env video options = .error e ∧
      cloneSingleNode env recur video options = .error e ∧
      (∀ fuel, filterRejects options video = false →
        cloneNode env (fuel + 1) video options false = .error e)) ∧
    (∀ (nativeNode : SNode) (clonedNode : CNode) (kids : List SNode) (e : Err),
      resolvedChildren nativeNode = .ok kids →
      nativeNode.data.kind ≠ .video →
      collectResults (kids.map (fun k => recur k options false)) = .error e →
      ∃ e2, cloneChildren env recur nativeNode clonedNode options = .error e2) := by
  refine ⟨fun d hd => ?_, fun e he => ⟨?_, ?_, fun fuel hfilt => ?_⟩,
    fun nativeNode clonedNode kids e hres hnv hcoll => ?_⟩
  · simp [cloneVideoElement, hsrc, hd]
  · simp [cloneVideoElement, hsrc, he]
  · simp [cloneSingleNode, hk, cloneVideoElement, hsrc, he]
  · rw [cloneNode]
    simp [hfilt, runClonePipeline, cloneSingleNode, hk, cloneVideoElement, hsrc,
      he, Except.map]
  · have hne : kids ≠ [] := by
      intro hnil
      rw [hnil] at hcoll
      simp [collectResults] at hcoll
    have hcond : ¬(kids.length = 0 ∨ nativeNode.data.kind = .video) := by
      rintro (h0 | hv)
      · exact hne (List.length_eq_zero.mp h0)
      · exact hnv hv
    rcases promiseAll_of_error hcoll (env.schedule kids.length) with ⟨e2, he2⟩
    refine ⟨e2, ?_⟩
    rw [cloneChildren.eq_def]
    simp only [hres, if_neg hcond, he2]

/-- C4 witness: a succeeding conversion yields the poster image clone; a
failing conversion rejects the clone at every uncaught level and a failing
child rejects the parent join. -/
theorem C4_poster_failure_witness :
    cloneVideoElement envTrivial videoPosterFix Options.empty =
      .ok (createImage "data:image/png;base64,AAAA") ∧
    cloneVideoElement envPosterFail videoPosterFix Options.empty =
      .error (.resourceError "network down") ∧
    cloneSingleNode envPosterFail failRec videoPosterFix Options.empty =
      .error (.resourceError "network down") ∧
    cloneNode envPosterFail 1 videoPosterFix Options.empty false =
      .error (.resourceError "network down") ∧
    (∃ e2, cloneChildren envPosterFail (cloneNode envPosterFail 1) bodyVideoFix
      (shallowClone bodyVideoFix) Options.empty = .error e2) := by
  refine ⟨?_, ?_, ?_, ?_, ?_⟩
  · exact (C4_poster_failure envTrivial failRec videoPosterFix Options.empty
      rfl rfl).1 "data:image/png;base64,AAAA" rfl
  · exact ((C4_poster_failure envPosterFail failRec videoPosterFix Options.empty
      rfl rfl).2.1 (.resourceError "network down") rfl).1
  · exact ((C4_poster_failure envPosterFail failRec videoPosterFix Options.empty
      rfl rfl).2.1 (.resourceError "network down") rfl).2.1
  · exact ((C4_poster_failure envPosterFail failRec videoPosterFix Options.empty
      rfl rfl).2.1 (.resourceError "network down") rfl).2.2 0 rfl
  · exact (C4_poster_failure envPosterFail (cloneNode envPosterFail 1)
      videoPosterFix Options.empty rfl rfl).2.2 bodyVideoFix
      (shallowClone bodyVideoFix) [videoPosterFix] (.resourceError "network down")
      rfl (by decide) rfl

/-- C5: when a non-video node has a non-empty resolved child list and every
child's clone settles successfully, the results are appended to the clone in
exactly the source order — whatever completion order `env.schedule`
produces — and each absent (filtered-out) child is skipped with no
placeholder. -/
theorem C5_child_order (env : Env) (recur : CloneRec) (nativeNode : SNode)
    (clonedNode : CNode) (options : Options) (kids : List SNode)
    (rs : List (Option CNode))
    (hkids : resolvedChildren nativeNode = .ok kids) (hne : kids ≠ [])
    (hnv : nativeNode.data.kind ≠ .video)
    (hok : collectResults (kids.map (fun k => recur k options false)) = .ok rs) :
    cloneChildren env recur nativeNode clonedNode options =
      .ok (.mk clonedNode.data (clonedNode.children ++ rs.filterMap id)) := by
  have hcond : ¬(kids.length = 0 ∨ nativeNode.data.kind = .video) := by
    rintro (h0 | hv)
    · exact hne (List.length_eq_zero.mp h0)
    · exact hnv hv
  have hall := promiseAll_of_ok hok (env.schedule kids.length)
  rw [cloneChildren.eq_def]
  simp only [hkids, if_neg hcond, hall]

/-- C5 witness: three children, reversed completion order, middle child
excluded by the filter: the append keeps source order `[1, 3]` with no
placeholder. -/
theorem C5_child_order_witness :
    cloneChildren envReversed (cloneNode envReversed 1) parent3Fix
      (shallowClone parent3Fix) optsNo2 =
      .ok (.mk (shallowClone parent3Fix).data
        ((shallowClone parent3Fix).children ++
          ([some div1CloneFix, none, some div3CloneFix].filterMap id))) :=
  C5_child_order envReversed (cloneNode envReversed 1) parent3Fix
    (shallowClone parent3Fix) optsNo2 parent3Fix.children
    [some div1CloneFix, none, some div3CloneFix] rfl
    (by simp [parent3Fix, SNode.children]) (by decide) rfl

/-- C6 counterexample: the caller's options are *not* threaded into the
re-entrant clone of an iframe's nested document body — that call gets fresh
empty options. With a filter rejecting `div` elements, the source clone of
the iframe still contains a `div` clone (produced by the unfiltered
re-entrant pass), while the spec-words variant that threads the options
produces a childless body clone; the two results differ. -/
theorem C6_threading_cex :
    optsNoDiv.filter = some noDivFilter ∧
    noDivFilter divFix = false ∧
    cloneNode envTrivial 5 iframeDivFix optsNoDiv true =
      .ok (some (CNode.mk bodyCloneDataFix [divCloneFix])) ∧
    cloneNodeThreaded envTrivial 5 iframeDivFix optsNoDiv true =
      .ok (some (CNode.mk bodyCloneDataFix [])) ∧
    CNode.mk bodyCloneDataFix [divCloneFix] ≠ CNode.mk bodyCloneDataFix [] :=
  ⟨rfl, rfl, rfl, rfl, by simp⟩

/-- C6 (amended): the caller's options are threaded unchanged into every
child clone of the fan-out, but the re-entrant clone of an iframe's nested
document body is invoked with the fresh empty options literal `{}`, so the
caller's exclusion predicate is not applied during that re-entrant pass. -/
theorem C6_threading (env : Env) (recur : CloneRec) :
    (∀ (nativeNode : SNode) (clonedNode : CNode) (options : Options)
        (kids : List SNode),
      resolvedChildren nativeNode = .ok kids →
      ¬(kids.length = 0 ∨ nativeNode.data.kind = .video) →
      cloneChildren env recur nativeNode clonedNode options =
        match promiseAll (kids.map (fun child => recur child options false))
            (env.schedule kids.length) with
        | .error e => .error e
        | .ok cs =>
          .ok (.mk clonedNode.data (clonedNode.children ++ cs.filterMap id))) ∧
    (∀ (iframe b : SNode) (options : Options),
      iframe.data.kind = .iframe → iframe.iframeDoc = .withBody b →
      cloneSingleNode env recur iframe options = cloneIFrameElement recur iframe ∧
      cloneIFrameElement recur iframe =
        match recur b Options.empty true with
        | .ok (some c) => .ok c
        | .ok none => .error .nullClone
        | .error _ => .ok (shallowClone iframe)) := by
  constructor
  · intro nativeNode clonedNode options kids hres hcond
    rw [cloneChildren.eq_def]
    simp only [hres, if_neg hcond]
  · intro iframe b options hk hdoc
    constructor
    · simp [cloneSingleNode, hk]
    · rw [cloneIFrameElement]
      simp only [hdoc]
      cases hrec : recur b Options.empty true with
      | error e => simp [Except.map]
      | ok r => cases r with
        | none => simp [Except.map]
        | some c => simp [Except.map]

/-- C6 witness: the fan-out equation and the empty-options iframe equation
instantiated on the concrete iframe fixture. -/
theorem C6_threading_witness :
    cloneChildren envTrivial failRec bodyDivFix (CNode.mk bodyCloneDataFix [])
      optsNoDiv =
      (match promiseAll ([divFix].map (fun child => failRec child optsNoDiv false))
          (envTrivial.schedule 1) with
       | .error e => .error e
       | .ok cs =>
         .ok (.mk bodyCloneDataFix (([] : List CNode) ++ cs.filterMap id))) ∧
    cloneSingleNode envTrivial failRec iframeDivFix optsNoDiv =
      cloneIFrameElement failRec iframeDivFix ∧
    cloneIFrameElement failRec iframeDivFix =
      (match failRec bodyDivFix Options.empty true with
       | .ok (some c) => .ok c
       | .ok none => .error .nullClone
       | .error _ => .ok (shallowClone iframeDivFix)) := by
  refine ⟨?_, ?_, ?_⟩
  · exact (C6_threading envTrivial failRec).1 bodyDivFix
      (CNode.mk bodyCloneDataFix []) optsNoDiv [divFix] rfl (by decide)
  · exact ((C6_threading envTrivial failRec).2 iframeDivFix bodyDivFix
      optsNoDiv rfl rfl).1
  · exact ((C6_threading envTrivial failRec).2 iframeDivFix bodyDivFix
      optsNoDiv rfl rfl).2

/-- C7 counterexample: the resolver clones a referenced definition through a
**root** `cloneNode` call (`isRoot = true`), so the caller's exclusion
filter is not consulted for the definition node: with a filter rejecting
`symbol` elements, a non-root clone of the definition is absent, yet the
resolver still clones it and appends it to the output. -/
theorem C7_symbol_root_cex :
    optsNoSymbol.filter = some noSymbolFilter ∧
    noSymbolFilter symbolDefFix = false ∧
    cloneNode envDocFix 2 symbolDefFix optsNoSymbol false = .ok none ∧
    cloneNode envDocFix 2 symbolDefFix optsNoSymbol true =
      .ok (some symbolDefCloneFix) ∧
    ensureSVGSymbols envDocFix (cloneNode envDocFix 2) hostCloneFix optsNoSymbol =
      .ok (hostCloneFix.appendChild (buildSVGContainer [symbolDefCloneFix])) :=
  ⟨rfl, rfl, rfl, rfl, rfl⟩

/-- C7 (amended): each entry the resolver records is keyed by a reference
with no match already inside the clone, holds the clone of the live
document's definition obtained through a **root** re-entrant `cloneNode`
call — which bypasses the exclusion filter for the definition node itself,
though the filter still applies inside its subtree — and each distinct
identifier is recorded at most once per resolver call. -/
theorem C7_symbol_resolution (env : Env) (recur : CloneRec) (clone : CNode)
    (options : Options) (table : List (String × CNode))
    (h : collectSVGDefs env recur clone options (usesOf clone) [] = .ok table) :
    (table.map Prod.fst).Nodup ∧
    (∀ p ∈ table, querySelectorC clone p.1 = none ∧
      ∃ d, env.docQuerySelector p.1 = some d ∧
        recur d options true = .ok (some p.2)) ∧
    (∀ (fuel : Nat) (node : SNode) (opts2 : Options),
      cloneNode env (fuel + 1) node opts2 true =
        (runClonePipeline env (cloneNode env fuel) node opts2).map some) := by
  rcases collectSVGDefs_inv env recur clone options (usesOf clone) [] table h with
    ⟨Hmem, Hnodup⟩
  refine ⟨Hnodup (by simp), fun p hp => ?_, fun fuel node opts2 => rfl⟩
  rcases Hmem p hp with hp0 | hgood
  · exact absurd hp0 (List.not_mem_nil p)
  · exact hgood

/-- C7 witness: the concrete resolver run records `#sym1` once, with the
definition cloned by a root call that ignores the symbol-rejecting filter. -/
theorem C7_symbol_resolution_witness :
    (["#sym1"] : List String).Nodup ∧
    querySelectorC hostCloneFix "#sym1" = none ∧
    envDocFix.docQuerySelector "#sym1" = some symbolDefFix ∧
    cloneNode envDocFix 2 symbolDefFix optsNoSymbol true =
      .ok (some symbolDefCloneFix) := by
  have H := C7_symbol_resolution envDocFix (cloneNode envDocFix 2) hostCloneFix
    optsNoSymbol [("#sym1", symbolDefCloneFix)] rfl
  rcases H with ⟨h1, h2, h3⟩
  rcases h2 ("#sym1", symbolDefCloneFix) (by simp) with ⟨hq, d, hd, hr⟩
  have hd2 : envDocFix.docQuerySelector "#sym1" = some symbolDefFix := rfl
  obtain rfl : symbolDefFix = d := Option.some.inj (hd2.symm.trans hd)
  exact ⟨h1, hq, hd, hr⟩

/-- C8: the resolver is idempotent with respect to already-resolved
references: on a clone in which every `use` reference is empty, absent, or
already matched by an element inside the clone, the resolver collects
nothing and returns the clone unchanged — no duplicate definition is
appended. -/
theorem C8_resolver_idempotent (env : Env) (recur : CloneRec) (clone : CNode)
    (options : Options)
    (h : ∀ u ∈ usesOf clone, ∀ i, getAttr u.data.attrs "xlink:href" = some i →
      i ≠ "" → (querySelectorC clone i).isSome = true) :
    ensureSVGSymbols env recur clone options = .ok clone := by
  by_cases hlen : (usesOf clone).length = 0
  · rw [ensureSVGSymbols]
    simp [hlen]
  · have hskip := collectSVGDefs_skip env recur clone options (usesOf clone) [] h
    rw [ensureSVGSymbols]
    simp [hlen, hskip]

/-- C8 witness: running the resolver on the clone whose `#sym1` definition
is already contained leaves it unchanged, even though the live document
could resolve the reference. -/
theorem C8_resolver_idempotent_witness :
    ensureSVGSymbols envDocFix (cloneNode envDocFix 2) resolvedCloneFix
      optsNoSymbol = .ok resolvedCloneFix := by
  refine C8_resolver_idempotent envDocFix (cloneNode envDocFix 2)
    resolvedCloneFix optsNoSymbol ?_
  intro u hu i hi hne
  have husesEq : usesOf resolvedCloneFix = [useCloneFix] := rfl
  rw [husesEq] at hu
  obtain rfl : u = useCloneFix := by simpa using hu
  have hattr : getAttr useCloneFix.data.attrs "xlink:href" = some "#sym1" := rfl
  obtain rfl : i = "#sym1" := (Option.some.inj (hattr.symm.trans hi)).symm
  rfl

/-- The `find`-and-mark step leaves the children untouched when no element
child's `value` attribute matches. -/
theorem markSelected_id (v : String) :
    ∀ (cs : List CNode), (∀ c ∈ cs, c.data.kind ≠ .nonElement →
      getAttr c.data.attrs "value" ≠ some v) → markSelected v cs = cs := by
  intro cs
  induction cs with
  | nil => intro h; rfl
  | cons c rest ih =>
    intro h
    rw [markSelected]
    rw [if_neg (fun hand => h c (List.mem_cons_self c rest) hand.1 hand.2)]
    rw [ih (fun x hx => h x (List.mem_cons_of_mem c hx))]

/-- C9: on a select with current value `"b"` whose clone holds option
children with values `a`, `b`, `c` (none pre-marked), the transfer marks
exactly the option with value `"b"` with a `selected` attribute and leaves
the others unmarked; when no cloned option's value matches, the clone is
left exactly as produced. -/
theorem C9_select_value (nativeNode : SNode) (clonedNode : CNode)
    (hk : nativeNode.data.kind = .select) :
    (nativeNode.data.value = "b" →
      clonedNode.children = [optionAFix, optionBFix, optionCFix] →
      cloneSelectValue nativeNode clonedNode =
        .mk clonedNode.data
          [optionAFix, optionBFix.setAttr "selected" "", optionCFix] ∧
      getAttr (optionBFix.setAttr "selected" "").data.attrs "selected" = some "" ∧
      getAttr optionAFix.data.attrs "selected" = none ∧
      getAttr optionCFix.data.attrs "selected" = none) ∧
    ((∀ c ∈ clonedNode.children, c.data.kind ≠ .nonElement →
        getAttr c.data.attrs "value" ≠ some nativeNode.data.value) →
      cloneSelectValue nativeNode clonedNode = clonedNode) := by
  constructor
  · intro hv hch
    refine ⟨?_, rfl, rfl, rfl⟩
    rw [cloneSelectValue, if_pos hk, hch, hv]
    rfl
  · intro hnone
    rw [cloneSelectValue, if_pos hk,
      markSelected_id nativeNode.data.value clonedNode.children hnone]
    exact CNode.eta clonedNode

/-- C9 witness: the concrete `a, b, c` scenario, plus the no-match case on a
select whose live value is matched by no option. -/
theorem C9_select_value_witness :
    cloneSelectValue selectFix selectCloneFix =
      .mk selectCloneFix.data
        [optionAFix, optionBFix.setAttr "selected" "", optionCFix] ∧
    getAttr (optionBFix.setAttr "selected" "").data.attrs "selected" = some "" ∧
    getAttr optionAFix.data.attrs "selected" = none ∧
    getAttr optionCFix.data.attrs "selected" = none :=
  (C9_select_value selectFix selectCloneFix rfl).1 rfl rfl

/-- C10: whenever the resolver collected at least one definition, the
auxiliary container appended as the clone's last child is an `svg` element
created in the XHTML namespace (not the SVG namespace), carrying the
`xmlns` attribute and the hiding inline style (absolute position, zero
size, hidden overflow, `display: none`), and wrapping a `defs` element in
the same XHTML namespace that holds the collected definitions. -/
theorem C10_container (env : Env) (recur : CloneRec) (clone : CNode)
    (options : Options) (table : List (String × CNode))
    (hne : ¬(usesOf clone).length = 0)
    (h : collectSVGDefs env recur clone options (usesOf clone) [] = .ok table)
    (hts : table ≠ []) :
    ensureSVGSymbols env recur clone options =
      .ok (clone.appendChild (buildSVGContainer (table.map Prod.snd))) ∧
    ∀ nodes : List CNode,
      (buildSVGContainer nodes).data.ns = xhtmlNS ∧
      (buildSVGContainer nodes).data.ns ≠ svgNS ∧
      (buildSVGContainer nodes).data.tag = "svg" ∧
      getAttr (buildSVGContainer nodes).data.attrs "xmlns" = some xhtmlNS ∧
      (buildSVGContainer nodes).data.style.decls =
        [("position", "absolute", ""), ("width", "0", ""), ("height", "0", ""),
         ("overflow", "hidden", ""), ("display", "none", "")] ∧
      (buildSVGContainer nodes).children =
        [CNode.mk { kind := .otherElement, ns := xhtmlNS, tag := "defs" } nodes] := by
  constructor
  · have hlen : (table.map Prod.snd).length ≠ 0 := by
      intro h0
      exact hts (List.map_eq_nil_iff.mp (List.length_eq_zero.mp h0))
    simp only [ensureSVGSymbols, if_neg hne, h]
    rw [if_pos hlen]
  · intro nodes
    refine ⟨rfl, ?_, rfl, rfl, rfl, rfl⟩
    rw [show (buildSVGContainer nodes).data.ns = xhtmlNS from rfl]
    decide

/-- C10 witness: the container built for the concrete `#sym1` resolution run
is the hidden XHTML `svg`/`defs` wrapper appended last. -/
theorem C10_container_witness :
    ensureSVGSymbols envDocFix (cloneNode envDocFix 2) hostCloneFix optsNoSymbol =
      .ok (hostCloneFix.appendChild
        (buildSVGContainer ([("#sym1", symbolDefCloneFix)].map Prod.snd))) ∧
    (buildSVGContainer [symbolDefCloneFix]).data.ns = xhtmlNS ∧
    (buildSVGContainer [symbolDefCloneFix]).data.ns ≠ svgNS ∧
    (buildSVGContainer [symbolDefCloneFix]).data.tag = "svg" ∧
    (buildSVGContainer [symbolDefCloneFix]).data.style.decls =
      [("position", "absolute", ""), ("width", "0", ""), ("height", "0", ""),
       ("overflow", "hidden", ""), ("display", "none", "")] := by
  have H := C10_container envDocFix (cloneNode envDocFix 2) hostCloneFix
    optsNoSymbol [("#sym1", symbolDefCloneFix)] (by decide) rfl (by simp)
  rcases H with ⟨h1, h2⟩
  rcases h2 [symbolDefCloneFix] with ⟨ha, hb, hc, _, he, _⟩
  exact ⟨h1, ha, hb, hc, he⟩

end CloneNodeModel
